import Mathlib

/-!
Verification development for the lobby-spy backend: a shallow embedding of
`src/backend/src/lobby/lobby.service.ts` (final revision) and
`src/backend/src/lobby/lobby.gateway.ts`, with theorems about the
lobby / join-request state machine and the connection registry.

The Prisma store is modelled as in-memory lists; the `members` relation of a
lobby is, as in `schema.prisma`, the set of users whose `lobbyId` foreign key
points at the lobby.  `prisma.<model>.delete` on a missing record raises a
non-domain store error (Prisma error P2025), which `handleServiceError` maps
to a generic `BadRequestException`.
-/

namespace LobbySpy

/-- `UserRole` enum from `schema.prisma`. -/
inductive UserRole where
  | MEMBER
  | ADMIN
  | OWNER
deriving Repr, DecidableEq

/-- `LobbyVisibility` enum from `schema.prisma`. -/
inductive LobbyVisibility where
  | PUBLIC
  | PRIVATE
deriving Repr, DecidableEq

/-- `User` record from `schema.prisma` (the fields the lobby service reads).
`lobbyId` is the member-lobby foreign key (`memberLobby` relation); a lobby's
`members` relation is the set of users whose `lobbyId` equals the lobby id. -/
structure User where
  id : String
  username : Option String
  role : UserRole
  lobbyId : Option String
deriving Repr, DecidableEq

/-- `Lobby` record from `schema.prisma` (fields the service reads). -/
structure Lobby where
  id : String
  name : String
  description : String
  imageUrl : Option String
  visibility : LobbyVisibility
  capacity : Nat
  ownerId : String
deriving Repr, DecidableEq

/-- `LobbyJoinRequest` record from `schema.prisma`; the `(userId, lobbyId)`
pair is unique (`@@unique([userId, lobbyId])`). -/
structure JoinRequest where
  userId : String
  lobbyId : String
deriving Repr, DecidableEq

/-- The Prisma database state used by the lobby service. -/
structure DB where
  users : List User
  lobbies : List Lobby
  joinRequests : List JoinRequest
deriving Repr, DecidableEq

/-- `prisma.user.findUnique({ where: { id } })`. -/
def findUser (db : DB) (id : String) : Option User :=
  db.users.find? (fun u => u.id = id)

/-- `prisma.lobby.findUnique({ where: { id } })`. -/
def findLobby (db : DB) (id : String) : Option Lobby :=
  db.lobbies.find? (fun l => l.id = id)

/-- The `members` relation of a lobby: users whose `lobbyId` FK points at it
(also what `prisma.user.count({ where: { lobbyId } })` counts). -/
def membersOf (db : DB) (lobbyId : String) : List User :=
  db.users.filter (fun u => u.lobbyId = some lobbyId)

/-- `prisma.lobbyJoinRequest.findFirst({ where: { userId } })`. -/
def findAnyRequestOfUser (db : DB) (userId : String) : Option JoinRequest :=
  db.joinRequests.find? (fun r => r.userId = userId)

/-- `prisma.lobbyJoinRequest.findUnique({ where: { userId_lobbyId } })`. -/
def findRequest (db : DB) (userId lobbyId : String) : Option JoinRequest :=
  db.joinRequests.find? (fun r => r.userId = userId && r.lobbyId = lobbyId)

/-- `prisma.user.update({ where: { id }, data })`: apply `f` to the user with
the given id.  Returns `none` when no such user exists (Prisma raises the
non-domain error P2025 in that case). -/
def updateUser (db : DB) (id : String) (f : User → User) : Option DB :=
  if (db.users.any (fun u => u.id = id)) then
    some { db with users := db.users.map (fun u => if u.id = id then f u else u) }
  else
    none

/-- `prisma.lobbyJoinRequest.delete({ where: { userId_lobbyId } })`: remove the
request for the pair.  Returns `none` when no such record exists (Prisma
raises the non-domain error P2025, "record to delete does not exist"). -/
def deleteRequest (db : DB) (userId lobbyId : String) : Option DB :=
  if (db.joinRequests.any (fun r => r.userId = userId && r.lobbyId = lobbyId)) then
    some { db with
      joinRequests :=
        db.joinRequests.filter (fun r => !(r.userId = userId && r.lobbyId = lobbyId)) }
  else
    none

/-- Errors surfaced by the lobby service.  `notFound`, `forbidden` and
`badRequest` are the NestJS domain exceptions; `storeError` stands for any
other exception escaping a Prisma call (e.g. P2025), which never leaves
`handleServiceError` unchanged. -/
inductive SvcError where
  | notFound (msg : String)
  | forbidden (msg : String)
  | badRequest (msg : String)
  | storeError (msg : String)
deriving Repr, DecidableEq

/-- Whether an error is a `NotFoundException`. -/
def SvcError.isNotFound : SvcError → Bool
  | .notFound _ => true
  | _ => false

/-- `handleServiceError(error, context)`: domain exceptions pass through
unchanged; anything else is logged and replaced by the generic
`BadRequestException`. -/
def handleServiceError (e : SvcError) (context : String) : SvcError :=
  match e with
  | .notFound m => .notFound m
  | .forbidden m => .forbidden m
  | .badRequest m => .badRequest m
  | .storeError _ =>
      .badRequest ("An unexpected error occurred while trying to " ++ context
        ++ ". Please try again later.")

/-- Wrap a service-method body in its `try { ... } catch { handleServiceError }`
block. -/
def guarded (context : String) (body : Except SvcError α) : Except SvcError α :=
  match body with
  | .ok a => .ok a
  | .error e => .error (handleServiceError e context)

/-- Status values carried by the `request-updated` wire event. -/
inductive ReqStatus where
  | accepted
  | rejected
  | kicked
deriving Repr, DecidableEq

/-- Outbound WebSocket events, tagged with the room they are emitted to
(`user-{id}` or `lobby-{id}`); timestamps are not modelled. -/
inductive WsEvent where
  | joinRequestEv (room userId username : String)
  | requestCancelled (room userId : String)
  | requestUpdated (room lobbyId : String) (status : ReqStatus) (cooldown : Option String)
  | memberJoined (room userId username : String)
  | memberLeft (room userId username : String)
  | visibilityChanged (room : String) (visibility : LobbyVisibility)
deriving Repr, DecidableEq

/-- `LobbyGateway.notifyNewRequest`: emits `join-request` to the lobby room. -/
def notifyNewRequest (lobbyId userId username : String) : WsEvent :=
  .joinRequestEv ("lobby-" ++ lobbyId) userId username

/-- `LobbyGateway.notifyRequestCancelled`. -/
def notifyRequestCancelled (lobbyId userId : String) : WsEvent :=
  .requestCancelled ("lobby-" ++ lobbyId) userId

/-- `LobbyGateway.notifyUserRequestUpdate`: emits `request-updated` to the
target user's room; the `cooldown: '6h'` field is present only for
`rejected`. -/
def notifyUserRequestUpdate (userId lobbyId : String) (status : ReqStatus) : WsEvent :=
  .requestUpdated ("user-" ++ userId) lobbyId status
    (if status = .rejected then some "6h" else none)

/-- `LobbyGateway.notifyNewMember`: emits `member-joined` to the lobby room. -/
def notifyNewMember (lobbyId userId username : String) : WsEvent :=
  .memberJoined ("lobby-" ++ lobbyId) userId username

/-- `LobbyGateway.notifyMemberLeft`: emits `member-left` to the lobby room. -/
def notifyMemberLeft (lobbyId userId username : String) : WsEvent :=
  .memberLeft ("lobby-" ++ lobbyId) userId username

/-- `user.username || 'Anonymous'`. -/
def usernameOr (u : User) : String := u.username.getD "Anonymous"

/-- Result of a mutating service call: the new database state, the WebSocket
events emitted, and the JSON message returned to the HTTP caller. -/
structure SvcResult where
  db : DB
  events : List WsEvent
  message : String
deriving Repr, DecidableEq

/-- `LobbyService.getLobbyById` (private helper): `findUnique` including owner
and members, `NotFoundException` when absent.  Its own `catch` block passes the
`NotFoundException` through `handleServiceError` unchanged. -/
def getLobbyById (db : DB) (lobbyId : String) : Except SvcError Lobby :=
  match findLobby db lobbyId with
  | none => .error (.notFound "Lobby not found")
  | some l => .ok l

/-- `isUserConnected` as observed by the service: membership of the gateway's
`connectedUsers` map, abstracted to the list of connected user ids. -/
def isConnected (conn : List String) (userId : String) : Bool :=
  conn.contains userId

/-- The `CreateLobbyDto` payload. -/
structure CreateLobbyDto where
  name : String
  visibility : Option LobbyVisibility
  imageUrl : Option String
  description : String
deriving Repr, DecidableEq

/-- `LobbyService.createLobby(dto, user)`.  Rejects callers who already have a
member-lobby reference; otherwise creates the lobby (with the caller connected
as owner and as member, so the caller's `lobbyId` FK is set by the `members`
connect) and updates the caller's role to `OWNER`.  `newId` is the fresh id
Prisma generates for the new lobby row. -/
def createLobby (db : DB) (conn : List String) (dto : CreateLobbyDto)
    (user : User) (newId : String) : Except SvcError SvcResult :=
  if user.lobbyId.isSome then
    .error (.forbidden "You are already a member or an owner of a lobby")
  else
    guarded "create lobby" (do
      let newLobby : Lobby :=
        { id := newId
          name := dto.name
          visibility := dto.visibility.getD .PUBLIC
          imageUrl := dto.imageUrl
          description := dto.description
          capacity := 30
          ownerId := user.id }
      let db1 : DB := { db with lobbies := db.lobbies ++ [newLobby] }
      let db2 ← match updateUser db1 user.id
          (fun u => { u with lobbyId := some newId }) with
        | none => .error (.storeError "P2025")
        | some d => .ok d
      let db3 ← match updateUser db2 user.id
          (fun u => { u with role := .OWNER, lobbyId := some newId }) with
        | none => .error (.storeError "P2025")
        | some d => .ok d
      let events :=
        if isConnected conn user.id then
          [notifyNewMember newId user.id (usernameOr user)]
        else []
      .ok { db := db3, events := events, message := "created" })

/-- `LobbyService.createJoinRequest(lobbyId, user)`.  Checks, in order: any
existing request of this user system-wide; lobby existence; caller already a
member of a lobby; an existing request for this exact pair.  On success
persists the request and notifies the lobby owner when connected. -/
def createJoinRequest (db : DB) (conn : List String) (lobbyId : String)
    (user : User) : Except SvcError SvcResult :=
  guarded "create join request" (do
    if (findAnyRequestOfUser db user.id).isSome then
      .error (.badRequest "You already have a pending request to another lobby")
    else do
      let lobby ← getLobbyById db lobbyId
      if user.lobbyId.isSome then
        .error (.badRequest "You are already a member of a lobby")
      else if (findRequest db user.id lobby.id).isSome then
        .error (.badRequest "You have already sent a request to join this lobby")
      else
        let db1 : DB :=
          { db with joinRequests := db.joinRequests ++ [⟨user.id, lobby.id⟩] }
        let events :=
          if isConnected conn lobby.ownerId then
            [notifyNewRequest lobby.id user.id (usernameOr user)]
          else []
        .ok { db := db1, events := events
              message := "Your join request has been sent and is pending approval." })

/-- `LobbyService.cancelJoinRequest(lobbyId, user)`.  Looks up the lobby, then
issues `lobbyJoinRequest.delete` for the caller's pair; when no such record
exists the delete raises Prisma's P2025, which `handleServiceError` converts
to the generic `BadRequestException`. -/
def cancelJoinRequest (db : DB) (conn : List String) (lobbyId : String)
    (user : User) : Except SvcError SvcResult :=
  guarded "cancel join request" (do
    let lobby ← getLobbyById db lobbyId
    let db1 ← match deleteRequest db user.id lobby.id with
      | none => .error (.storeError "P2025")
      | some d => .ok d
    let events :=
      if isConnected conn lobby.ownerId then
        [notifyRequestCancelled lobby.id user.id]
      else []
    .ok { db := db1, events := events, message := "Join request has been cancelled" })

/-- `LobbyService.approveJoinRequest(lobbyId, userId, owner)`.  Checks, in
order: lobby existence; caller is the lobby's owner; member count below
capacity; the matching join request exists; target user exists and is not in a
lobby.  The success path runs one `$transaction` setting the target's
`lobbyId` and deleting the request, then notifies the target when connected. -/
def approveJoinRequest (db : DB) (conn : List String) (lobbyId userId : String)
    (owner : User) : Except SvcError SvcResult :=
  guarded "approve join request" (do
    let lobby ← getLobbyById db lobbyId
    if lobby.ownerId ≠ owner.id then
      .error (.forbidden "Only the owner can approve join requests")
    else if (membersOf db lobby.id).length ≥ lobby.capacity then
      .error (.badRequest "Lobby has reached maximum capacity")
    else if (findRequest db userId lobbyId).isNone then
      .error (.notFound "Join request not found")
    else
      match findUser db userId with
      | none => .error (.badRequest "User is already in a lobby")
      | some target =>
        if target.lobbyId.isSome then
          .error (.badRequest "User is already in a lobby")
        else do
          let db1 ← match updateUser db userId
              (fun u => { u with lobbyId := some lobbyId }) with
            | none => .error (.storeError "P2025")
            | some d => .ok d
          let db2 ← match deleteRequest db1 userId lobbyId with
            | none => .error (.storeError "P2025")
            | some d => .ok d
          let events :=
            if isConnected conn userId then
              [notifyUserRequestUpdate userId lobbyId .accepted,
               notifyNewMember lobbyId userId (usernameOr target)]
            else []
          .ok { db := db2, events := events
                message := "User has been added to the lobby" })

/-- `LobbyService.rejectJoinRequest(lobbyId, userId, owner)`.  Checks lobby
existence and ownership, requires the matching request, deletes it, notifies
the target (with the advisory 6h cooldown) when connected. -/
def rejectJoinRequest (db : DB) (conn : List String) (lobbyId userId : String)
    (owner : User) : Except SvcError SvcResult :=
  guarded "reject join request" (do
    let lobby ← getLobbyById db lobbyId
    if lobby.ownerId ≠ owner.id then
      .error (.forbidden "Only the owner can reject join requests")
    else if (findRequest db userId lobbyId).isNone then
      .error (.notFound "Join request not found")
    else do
      let db1 ← match deleteRequest db userId lobbyId with
        | none => .error (.storeError "P2025")
        | some d => .ok d
      let events :=
        if isConnected conn userId then
          [notifyUserRequestUpdate userId lobbyId .rejected]
        else []
      .ok { db := db1, events := events, message := "Join request has been rejected" })

/-- `LobbyService.getLobby(lobbyId, user)`.  A `PRIVATE` lobby is returned only
when the requester's member-lobby reference (`user.memberLobby?.id`) equals the
lobby id; otherwise `ForbiddenException`. -/
def getLobby (db : DB) (lobbyId : String) (user : User) : Except SvcError Lobby :=
  guarded "retrieve lobby" (do
    match findLobby db lobbyId with
    | none => .error (.notFound "Lobby not found")
    | some lobby =>
      if lobby.visibility = .PRIVATE ∧ user.lobbyId ≠ some lobbyId then
        .error (.forbidden "Only members can access this private lobby")
      else
        .ok lobby)

/-- `LobbyService.leaveLobby(user)`.  Requires a member-lobby reference, clears
it and resets the role to `MEMBER` — with no check whether the caller owns the
lobby — then emits `member-left` when the caller is connected. -/
def leaveLobby (db : DB) (conn : List String) (user : User) :
    Except SvcError SvcResult :=
  guarded "leave lobby" (do
    match user.lobbyId with
    | none => .error (.badRequest "You are not part of any lobby")
    | some lobbyId => do
      let db1 ← match updateUser db user.id
          (fun u => { u with lobbyId := none, role := .MEMBER }) with
        | none => .error (.storeError "P2025")
        | some d => .ok d
      let events :=
        if isConnected conn user.id then
          [notifyMemberLeft lobbyId user.id (usernameOr user)]
        else []
      .ok { db := db1, events := events, message := "You have left the lobby" })

/-- `LobbyService.removeMember(lobbyId, memberId, owner)`.  Checks lobby
existence, ownership, refuses the owner removing themselves, requires the
target to be a current member of this lobby; then clears the target's
member-lobby reference and role and emits `request-updated(kicked)` to the
target's user room when the target is connected.  No `member-left` event is
emitted. -/
def removeMember (db : DB) (conn : List String) (lobbyId memberId : String)
    (owner : User) : Except SvcError SvcResult :=
  guarded "remove member" (do
    let lobby ← getLobbyById db lobbyId
    if lobby.ownerId ≠ owner.id then
      .error (.forbidden "Only the owner can remove members")
    else if memberId = owner.id then
      .error (.badRequest "Owner cannot remove themselves")
    else
      match findUser db memberId with
      | none => .error (.badRequest "User is not a member of this lobby")
      | some target =>
        if target.lobbyId ≠ some lobbyId then
          .error (.badRequest "User is not a member of this lobby")
        else do
          let db1 ← match updateUser db memberId
              (fun u => { u with lobbyId := none, role := .MEMBER }) with
            | none => .error (.storeError "P2025")
            | some d => .ok d
          let events :=
            if isConnected conn memberId then
              [notifyUserRequestUpdate memberId lobbyId .kicked]
            else []
          .ok { db := db1, events := events
                message := "Member has been removed from the lobby" })

/-! ### Gateway: connection registry and socket message handlers
(`src/backend/src/lobby/lobby.gateway.ts`) -/

/-- The user data attached to an authenticated socket (`AuthenticatedSocket`):
`lobbyId` is the cached owned-lobby id from the JWT, `memberLobbyId` the cached
member-lobby id. -/
structure SocketUser where
  id : String
  username : String
  lobbyId : Option String
  memberLobbyId : Option String
deriving Repr, DecidableEq

/-- A socket as the gateway sees it: a transport handle (`sid`) plus the
`user` field, populated during `handleConnection` on successful
authentication. -/
structure GwSocket where
  sid : Nat
  user : Option SocketUser
deriving Repr, DecidableEq

/-- The gateway's `connectedUsers : Map<string, Socket>`, as an association
list from user id to the socket's transport handle. -/
abbrev Registry := List (String × Nat)

/-- JavaScript `Map.prototype.set`: replaces the value under an existing key,
otherwise appends a new entry. -/
def Registry.set (r : Registry) (k : String) (v : Nat) : Registry :=
  if (List.any r (fun p => p.1 = k)) then
    List.map (fun p : String × Nat => if p.1 = k then (k, v) else p) r
  else
    r ++ [(k, v)]

/-- JavaScript `Map.prototype.delete`, keyed removal. -/
def Registry.del (r : Registry) (k : String) : Registry :=
  List.filter (fun p : String × Nat => p.1 ≠ k) r

/-- `LobbyGateway.isUserConnected(userId)`: `connectedUsers.has(userId)`. -/
def isUserConnected (r : Registry) (userId : String) : Bool :=
  List.any r (fun p => p.1 = userId)

/-- The successful-authentication path of `LobbyGateway.handleConnection`:
attach the verified user to the socket and `connectedUsers.set(user.id,
socket)` (room joins are not tracked by the registry).  Returns the updated
registry and the socket with its `user` field populated. -/
def handleConnection (r : Registry) (sock : GwSocket) (authUser : SocketUser) :
    Registry × GwSocket :=
  (Registry.set r authUser.id sock.sid, { sock with user := some authUser })

/-- `LobbyGateway.handleDisconnect(socket)`: when the socket carries an
authenticated user, delete the registry entry under that user's id —
regardless of whether the stored socket is this one. -/
def handleDisconnect (r : Registry) (sock : GwSocket) : Registry :=
  match sock.user with
  | some u => Registry.del r u.id
  | none => r

/-- The `join-request` message payload (`joinRequestSchema`). -/
structure JoinRequestDto where
  lobbyId : String
  message : Option String
deriving Repr, DecidableEq

/-- `LobbyGateway.handleJoinRequest(socket, data)`: throws a `WsException`
when the session's cached owned-lobby id is absent (`!socket.user.lobbyId`);
otherwise emits `join-request` to the payload's lobby room via
`notifyNewRequest` — the payload's `lobbyId` is not compared against the
session's cached owned-lobby id. -/
def handleJoinRequest (su : SocketUser) (data : JoinRequestDto) :
    Except String (List WsEvent) :=
  if su.lobbyId.isNone then
    .error "Only lobby owners can receive join requests"
  else
    .ok [notifyNewRequest data.lobbyId su.id su.username]

/-! ### Concrete fixtures used by witnesses and counterexamples -/

/-- A lobby "L" owned by "u1" with the given capacity. -/
def fixLobby (cap : Nat) (vis : LobbyVisibility) : Lobby :=
  { id := "L", name := "Test", description := "desc", imageUrl := none
    visibility := vis, capacity := cap, ownerId := "u1" }

/-- User "u1", owner of lobby "L" and member of it. -/
def fixOwner : User := { id := "u1", username := some "alice", role := .OWNER, lobbyId := some "L" }

/-- User "u2" with no lobby affiliation. -/
def fixFree : User := { id := "u2", username := some "bob", role := .MEMBER, lobbyId := none }

/-- User "u2" as a member of lobby "L". -/
def fixMember : User := { id := "u2", username := some "bob", role := .MEMBER, lobbyId := some "L" }

/-- User "u1" before creating any lobby. -/
def fixFresh : User := { id := "u1", username := some "alice", role := .MEMBER, lobbyId := none }

/-- User "u1" after having left lobby "L" (role and member reference reset). -/
def fixOwnerLeft : User := { id := "u1", username := some "alice", role := .MEMBER, lobbyId := none }

/-- State after `createLobby` of a PRIVATE lobby "L" by "u1". -/
def dbOwned : DB := { users := [fixOwner], lobbies := [fixLobby 30 .PRIVATE], joinRequests := [] }

/-- State after the owner "u1" has additionally left lobby "L": the lobby row
survives with `ownerId = "u1"` while "u1" is no longer a member. -/
def dbOwnerLeft : DB :=
  { users := [fixOwnerLeft], lobbies := [fixLobby 30 .PRIVATE], joinRequests := [] }

/-- The `CreateLobbyDto` for a PRIVATE lobby named "Test". -/
def dtoPriv : CreateLobbyDto :=
  { name := "Test", visibility := some .PRIVATE, imageUrl := none, description := "desc" }

/-- Capacity-1 lobby "L" whose owner "u1" is the sole member, with a pending
request from "u2". -/
def dbCapOne : DB :=
  { users := [fixOwner, fixFree], lobbies := [fixLobby 1 .PUBLIC]
    joinRequests := [⟨"u2", "L"⟩] }

/-- Capacity-2 lobby "L" with the owner as sole member and a pending request
from "u2". -/
def dbCapTwo : DB :=
  { users := [fixOwner, fixFree], lobbies := [fixLobby 2 .PUBLIC]
    joinRequests := [⟨"u2", "L"⟩] }

/-- `dbCapTwo` after the request from "u2" was approved: the lobby is at
capacity and no join request remains. -/
def dbCapTwoFull : DB :=
  { users := [fixOwner, fixMember], lobbies := [fixLobby 2 .PUBLIC], joinRequests := [] }

/-- A roomy lobby "L" with owner "u1", free user "u2" and no join requests. -/
def dbNoReq : DB :=
  { users := [fixOwner, fixFree], lobbies := [fixLobby 30 .PUBLIC], joinRequests := [] }

/-- Lobby "L" (capacity 5) with owner "u1" and member "u2". -/
def dbKick : DB :=
  { users := [fixOwner, fixMember], lobbies := [fixLobby 5 .PUBLIC], joinRequests := [] }

/-- `dbKick` after "u2" was removed from the lobby. -/
def dbKicked : DB :=
  { users := [fixOwner, fixFree], lobbies := [fixLobby 5 .PUBLIC], joinRequests := [] }

/-- Number of outstanding join requests of one user, system-wide. -/
def countReq (db : DB) (uid : String) : Nat :=
  (db.joinRequests.filter (fun r => r.userId = uid)).length

/-- Whether an outbound event is a `member-left` emission. -/
def WsEvent.isMemberLeft : WsEvent → Bool
  | .memberLeft _ _ _ => true
  | _ => false

/-! ### Helper lemmas about the store operations -/

/-- `guarded` is the identity on successful bodies. -/
theorem guarded_ok_iff (context : String) (body : Except SvcError α) (a : α) :
    guarded context body = .ok a ↔ body = .ok a := by
  cases body <;> simp [guarded]

/-- An `updateUser` that succeeds only rewrites the `users` column. -/
theorem updateUser_eq (db : DB) (id : String) (f : User → User) (db' : DB)
    (h : updateUser db id f = some db') :
    db' = { db with users := db.users.map (fun u => if u.id = id then f u else u) } := by
  unfold updateUser at h
  split at h
  · exact (Option.some.injEq _ _ ▸ h).symm
  · exact absurd h (by simp)

/-- A `deleteRequest` that succeeds only rewrites the `joinRequests` column. -/
theorem deleteRequest_eq (db : DB) (userId lobbyId : String) (db' : DB)
    (h : deleteRequest db userId lobbyId = some db') :
    db' = { db with
      joinRequests :=
        db.joinRequests.filter (fun r => !(r.userId = userId && r.lobbyId = lobbyId)) } := by
  unfold deleteRequest at h
  split at h
  · exact (Option.some.injEq _ _ ▸ h).symm
  · exact absurd h (by simp)

/-- Updating the user with id `uid` rewrites the first record found under that
id by `f`, provided `f` preserves ids. -/
theorem find?_map_update_self (l : List User) (uid : String) (f : User → User) (u : User)
    (hf : ∀ x, (f x).id = x.id)
    (h : l.find? (fun v => v.id = uid) = some u) :
    (l.map (fun v => if v.id = uid then f v else v)).find? (fun v => v.id = uid)
      = some (f u) := by
  induction l with
  | nil => simp [List.find?] at h
  | cons a t ih =>
    rw [List.map_cons]
    by_cases ha : a.id = uid
    · rw [List.find?_cons_of_pos _ (by simp [ha])] at h
      have hu : u = a := by simpa using h.symm
      subst hu
      rw [if_pos ha, List.find?_cons_of_pos _ (by simp [hf, ha])]
    · rw [List.find?_cons_of_neg _ (by simp [ha])] at h
      rw [if_neg ha, List.find?_cons_of_neg _ (by simp [ha])]
      exact ih h

/-- Looking up a different id is unaffected by `updateUser`'s rewrite,
provided `f` preserves ids. -/
theorem find?_map_update_other (l : List User) (uid w : String) (f : User → User)
    (hf : ∀ x, (f x).id = x.id) (hw : w ≠ uid) :
    (l.map (fun v => if v.id = uid then f v else v)).find? (fun v => v.id = w)
      = l.find? (fun v => v.id = w) := by
  induction l with
  | nil => simp
  | cons a t ih =>
    rw [List.map_cons]
    by_cases ha : a.id = uid
    · have hfa : (f a).id = uid := by rw [hf]; exact ha
      have hnw : ¬((f a).id = w) := by rw [hfa]; exact fun h => hw h.symm
      have hnw2 : ¬(a.id = w) := by rw [ha]; exact fun h => hw h.symm
      rw [if_pos ha, List.find?_cons_of_neg _ (by simp [hnw]),
        List.find?_cons_of_neg _ (by simp [hnw2])]
      exact ih
    · rw [if_neg ha]
      by_cases haw : a.id = w
      · rw [List.find?_cons_of_pos _ (by simp [haw]),
          List.find?_cons_of_pos _ (by simp [haw])]
      · rw [List.find?_cons_of_neg _ (by simp [haw]),
          List.find?_cons_of_neg _ (by simp [haw])]
        exact ih

/-- After a successful `deleteRequest`, the pair is gone. -/
theorem findRequest_after_delete (db : DB) (userId lobbyId : String) (db' : DB)
    (h : deleteRequest db userId lobbyId = some db') :
    findRequest db' userId lobbyId = none := by
  rw [deleteRequest_eq db userId lobbyId db' h]
  unfold findRequest
  rw [List.find?_eq_none]
  intro r hr
  have := List.of_mem_filter hr
  simp only [Bool.not_eq_true'] at this
  simp [this]

/-- `deleteRequest` never touches the `users` column. -/
theorem deleteRequest_users (db : DB) (userId lobbyId : String) (db' : DB)
    (h : deleteRequest db userId lobbyId = some db') :
    db'.users = db.users := by
  rw [deleteRequest_eq db userId lobbyId db' h]

/-- Removing a key from the registry makes `isUserConnected` false for it. -/
theorem isUserConnected_del (r : Registry) (k : String) :
    isUserConnected (Registry.del r k) k = false := by
  unfold isUserConnected Registry.del
  rw [List.any_eq_false]
  intro p hp
  have := List.of_mem_filter hp
  simp only [decide_not] at this
  simpa using this

/-- Rewriting the records under one id grows any filtered count by at most the
number of records carrying that id. -/
theorem length_filter_map_update_le (l : List User) (uid : String)
    (f : User → User) (p : User → Bool) :
    ((l.map (fun u => if u.id = uid then f u else u)).filter p).length
      ≤ (l.filter p).length + l.countP (fun u => u.id = uid) := by
  induction l with
  | nil => simp
  | cons a t ih =>
    rw [List.map_cons, List.filter_cons, List.filter_cons, List.countP_cons]
    by_cases ha : a.id = uid
    · rw [if_pos ha]
      have hd : (decide (a.id = uid)) = true := by simp [ha]
      rw [hd]
      by_cases hp : p (f a) <;> by_cases hq : p a <;>
        simp [hp, hq] <;> omega
    · rw [if_neg ha]
      have hd : (decide (a.id = uid)) = false := by simp [ha]
      rw [hd]
      by_cases hq : p a <;> simp [hq] <;> omega

/-- Under unique user ids, at most one record carries a given id. -/
theorem countP_id_le_one (l : List User) (uid : String)
    (hnd : (l.map User.id).Nodup) :
    l.countP (fun u => u.id = uid) ≤ 1 := by
  induction l with
  | nil => simp
  | cons a t ih =>
    rw [List.map_cons, List.nodup_cons] at hnd
    rw [List.countP_cons]
    by_cases ha : a.id = uid
    · have hz : t.countP (fun u => decide (u.id = uid)) = 0 := by
        rw [List.countP_eq_zero]
        intro u hu
        simp only [decide_eq_true_eq]
        intro he
        exact hnd.1 (ha ▸ he ▸ List.mem_map_of_mem User.id hu)
      simp [ha, hz]
    · simp only [ha, decide_eq_true_eq, if_false]
      simpa using ih hnd.2

/-- Inversion of a successful `createJoinRequest`: the caller had no request
anywhere, the lobby exists, and the post-state appends exactly one request. -/
theorem createJoinRequest_ok (db : DB) (conn : List String) (lobbyId : String)
    (user : User) (r : SvcResult)
    (hok : createJoinRequest db conn lobbyId user = .ok r) :
    findAnyRequestOfUser db user.id = none
    ∧ ∃ lobby, findLobby db lobbyId = some lobby
        ∧ r.db = { db with joinRequests := db.joinRequests ++ [⟨user.id, lobby.id⟩] } := by
  unfold createJoinRequest at hok
  rw [guarded_ok_iff] at hok
  split at hok
  · exact absurd hok (by simp)
  · rename_i hany
    simp only [Bind.bind] at hok
    unfold getLobbyById at hok
    cases hfl : findLobby db lobbyId with
    | none => rw [hfl] at hok; exact absurd hok (by simp [Except.bind])
    | some lobby =>
      rw [hfl] at hok
      simp only [Except.bind] at hok
      split at hok
      · exact absurd hok (by simp)
      · split at hok
        · exact absurd hok (by simp)
        · refine ⟨by simpa using hany, lobby, rfl, ?_⟩
          have := (Except.ok.injEq _ _).mp hok
          rw [← this]

/-- Inversion of a successful `approveJoinRequest`: every guard passed, and
the post-state is the `$transaction` of the member write and the request
delete. -/
theorem approveJoinRequest_ok (db : DB) (conn : List String) (lobbyId userId : String)
    (owner : User) (r : SvcResult)
    (hok : approveJoinRequest db conn lobbyId userId owner = .ok r) :
    ∃ lobby target db1,
      findLobby db lobbyId = some lobby
      ∧ lobby.ownerId = owner.id
      ∧ (membersOf db lobby.id).length < lobby.capacity
      ∧ (findRequest db userId lobbyId).isSome
      ∧ findUser db userId = some target
      ∧ target.lobbyId = none
      ∧ updateUser db userId (fun u => { u with lobbyId := some lobbyId }) = some db1
      ∧ deleteRequest db1 userId lobbyId = some r.db
      ∧ r.events = (if isConnected conn userId then
            [notifyUserRequestUpdate userId lobbyId .accepted,
             notifyNewMember lobbyId userId (usernameOr target)] else []) := by
  unfold approveJoinRequest at hok
  rw [guarded_ok_iff] at hok
  simp only [Bind.bind] at hok
  unfold getLobbyById at hok
  cases hfl : findLobby db lobbyId with
  | none => rw [hfl] at hok; exact absurd hok (by simp [Except.bind])
  | some lobby =>
    rw [hfl] at hok
    simp only [Except.bind] at hok
    split at hok
    · exact absurd hok (by simp)
    · rename_i hown
      split at hok
      · exact absurd hok (by simp)
      · rename_i hcap
        split at hok
        · exact absurd hok (by simp)
        · rename_i hreq
          cases hfu : findUser db userId with
          | none => rw [hfu] at hok; exact absurd hok (by simp)
          | some target =>
            rw [hfu] at hok
            simp only [] at hok
            cases ht : target.lobbyId with
            | some x => rw [ht] at hok; exact absurd hok (by simp)
            | none =>
              rw [ht] at hok
              simp only [Option.isSome_none, Bool.false_eq_true, if_false] at hok
              cases hupd : updateUser db userId
                  (fun u => { u with lobbyId := some lobbyId }) with
              | none => rw [hupd] at hok; exact absurd hok (by simp [Except.bind])
              | some db1 =>
                rw [hupd] at hok
                simp only [Except.bind] at hok
                cases hdel : deleteRequest db1 userId lobbyId with
                | none => rw [hdel] at hok; exact absurd hok (by simp [Except.bind])
                | some db2 =>
                  rw [hdel] at hok
                  simp only [Except.bind] at hok
                  have hr := (Except.ok.injEq _ _).mp hok
                  refine ⟨lobby, target, db1, rfl, by simpa using hown,
                    by omega, ?_, rfl, ht, rfl, ?_, ?_⟩
                  · cases hq : findRequest db userId lobbyId with
                    | none => rw [hq] at hreq; simp at hreq
                    | some q => simp
                  · rw [← hr]
                    exact hdel
                  · rw [← hr]

/-- Inversion of a successful `removeMember`: the caller is the owner, the
target is a current non-owner member, and the post-state clears the target's
member reference and role.  Only the `kicked` notification is emitted, and
only when the target is connected. -/
theorem removeMember_ok (db : DB) (conn : List String) (lobbyId memberId : String)
    (caller : User) (r : SvcResult)
    (hok : removeMember db conn lobbyId memberId caller = .ok r) :
    ∃ lobby target,
      findLobby db lobbyId = some lobby
      ∧ lobby.ownerId = caller.id
      ∧ memberId ≠ caller.id
      ∧ findUser db memberId = some target
      ∧ target.lobbyId = some lobbyId
      ∧ updateUser db memberId (fun u => { u with lobbyId := none, role := .MEMBER })
          = some r.db
      ∧ r.events = (if isConnected conn memberId then
          [notifyUserRequestUpdate memberId lobbyId .kicked] else []) := by
  unfold removeMember at hok
  rw [guarded_ok_iff] at hok
  simp only [Bind.bind] at hok
  unfold getLobbyById at hok
  cases hfl : findLobby db lobbyId with
  | none => rw [hfl] at hok; exact absurd hok (by simp [Except.bind])
  | some lobby =>
    rw [hfl] at hok
    simp only [Except.bind] at hok
    split at hok
    · exact absurd hok (by simp)
    · rename_i hown
      split at hok
      · exact absurd hok (by simp)
      · rename_i hself
        cases hfu : findUser db memberId with
        | none => rw [hfu] at hok; exact absurd hok (by simp)
        | some target =>
          rw [hfu] at hok
          simp only [] at hok
          split at hok
          · exact absurd hok (by simp)
          · rename_i htl
            cases hupd : updateUser db memberId
                (fun u => { u with lobbyId := none, role := .MEMBER }) with
            | none => rw [hupd] at hok; exact absurd hok (by simp [Except.bind])
            | some db1 =>
              rw [hupd] at hok
              simp only [Except.bind] at hok
              have hr := (Except.ok.injEq _ _).mp hok
              refine ⟨lobby, target, rfl, by simpa using hown, by simpa using hself,
                rfl, by simpa using htl, ?_, ?_⟩
              · rw [← hr]
              · rw [← hr]

/-! ### Claim theorems -/

/-- C10: after `handleConnection(s1)` and `handleConnection(s2)` both
authenticating as the same user `u` (the second replacing the registry entry),
`handleDisconnect(s1)` deletes the entry keyed by `u`, so `isUserConnected(u)`
is false even though the replacement socket `s2` is still connected. -/
theorem stale_disconnect_unregisters (u : SocketUser) (sid1 sid2 : Nat)
    (r0 : Registry) (hne : sid1 ≠ sid2) :
    isUserConnected
      (handleDisconnect
        ((handleConnection ((handleConnection r0 ⟨sid1, none⟩ u).1) ⟨sid2, none⟩ u).1)
        ((handleConnection r0 ⟨sid1, none⟩ u).2))
      u.id = false := by
  simp only [handleConnection, handleDisconnect]
  exact isUserConnected_del _ _

/-- Witness for C10 at user "u" with socket handles 1 and 2 over the empty
registry. -/
theorem stale_disconnect_unregisters_witness :
    isUserConnected
      (handleDisconnect
        ((handleConnection
          ((handleConnection [] ⟨1, none⟩ ⟨"u", "a", none, none⟩).1)
          ⟨2, none⟩ ⟨"u", "a", none, none⟩).1)
        ((handleConnection [] ⟨1, none⟩ ⟨"u", "a", none, none⟩).2))
      "u" = false :=
  stale_disconnect_unregisters ⟨"u", "a", none, none⟩ 1 2 [] (by decide)

/-- C9 counterexample: a session whose cached owned-lobby id is "A" sends
`join-request` for lobby "B"; the gateway dispatches it and emits the
notification to room `lobby-B`, instead of rejecting the mismatched payload. -/
theorem join_request_mismatch_dispatch_cx :
    handleJoinRequest ⟨"u1", "alice", some "A", none⟩ ⟨"B", none⟩
      = .ok [WsEvent.joinRequestEv "lobby-B" "u1" "alice"]
    ∧ "A" ≠ "B" := by
  exact ⟨rfl, by decide⟩

/-- C9 amended: `handleJoinRequest` rejects exactly the sessions whose cached
owned-lobby id is absent; any session with a non-null cached owned-lobby id has
the message dispatched (emitting `join-request` to the payload's lobby room),
with no comparison against the payload's `lobbyId`. -/
theorem join_request_gate_amended (su : SocketUser) (data : JoinRequestDto) :
    (su.lobbyId = none →
      handleJoinRequest su data = .error "Only lobby owners can receive join requests")
    ∧ (∀ x, su.lobbyId = some x →
      handleJoinRequest su data = .ok [notifyNewRequest data.lobbyId su.id su.username]) := by
  constructor
  · intro h
    simp [handleJoinRequest, h]
  · intro x h
    simp [handleJoinRequest, h]

/-- Witness for the amended C9: a session with no cached owned-lobby id is
rejected. -/
theorem join_request_gate_amended_witness :
    handleJoinRequest ⟨"u1", "alice", none, none⟩ ⟨"B", none⟩
      = .error "Only lobby owners can receive join requests" :=
  (join_request_gate_amended ⟨"u1", "alice", none, none⟩ ⟨"B", none⟩).1 rfl

/-- C7 counterexample: starting from a fresh user, `createLobby` of a PRIVATE
lobby followed by `leaveLobby` reaches a state where "u1" is still the lobby's
owner but no longer a member; `getLobby` then fails `Forbidden` for the owner,
refuting "succeeds when the requester is the owner". -/
theorem private_lobby_owner_forbidden_cx :
    createLobby { users := [fixFresh], lobbies := [], joinRequests := [] } []
        dtoPriv fixFresh "L"
      = .ok ⟨dbOwned, [], "created"⟩
    ∧ leaveLobby dbOwned [] fixOwner = .ok ⟨dbOwnerLeft, [], "You have left the lobby"⟩
    ∧ (findLobby dbOwnerLeft "L").map Lobby.ownerId = some "u1"
    ∧ findUser dbOwnerLeft "u1" = some fixOwnerLeft
    ∧ getLobby dbOwnerLeft "L" fixOwnerLeft
        = .error (.forbidden "Only members can access this private lobby") := by
  refine ⟨rfl, rfl, by decide, by decide, rfl⟩

/-- C7 amended: access to a PRIVATE lobby is decided solely by the requester's
member-lobby reference: it succeeds exactly when `user.memberLobby?.id` equals
the lobby id (owners normally qualify through their membership), and fails
`Forbidden` otherwise — including for an owner whose member reference was
cleared. -/
theorem private_lobby_access_amended (db : DB) (lobbyId : String) (user : User)
    (lobby : Lobby)
    (hfind : findLobby db lobbyId = some lobby)
    (hpriv : lobby.visibility = .PRIVATE) :
    (user.lobbyId = some lobbyId → getLobby db lobbyId user = .ok lobby)
    ∧ (user.lobbyId ≠ some lobbyId →
        getLobby db lobbyId user
          = .error (.forbidden "Only members can access this private lobby")) := by
  constructor
  · intro h
    simp [getLobby, guarded, hfind, h]
  · intro h
    simp [getLobby, guarded, handleServiceError, hfind, hpriv, h]

/-- Witness for the amended C7: the owner-member "u1" reads their own PRIVATE
lobby successfully. -/
theorem private_lobby_access_amended_witness :
    getLobby dbOwned "L" fixOwner = .ok (fixLobby 30 .PRIVATE) :=
  (private_lobby_access_amended dbOwned "L" fixOwner (fixLobby 30 .PRIVATE)
    (by decide) (by decide)).1 (by decide)

/-- C6 counterexample: with lobby "L" present and no join request from "u2",
`cancelJoinRequest` is not a tolerated no-op: the underlying delete raises
Prisma's P2025 and the call fails with the generic unexpected-error
`BadRequestException`. -/
theorem cancel_missing_request_cx :
    findRequest dbNoReq "u2" "L" = none
    ∧ cancelJoinRequest dbNoReq [] "L" fixFree
        = .error (.badRequest
            "An unexpected error occurred while trying to cancel join request. Please try again later.") := by
  exact ⟨by decide, rfl⟩

/-- C6 amended: `cancelJoinRequest` on an existing lobby with no matching
join request fails with the generic unexpected-error `BadRequestException`
produced by `handleServiceError` from the store's record-not-found error; it
does not complete as a silent no-op. -/
theorem cancel_missing_request_amended (db : DB) (conn : List String)
    (lobbyId : String) (user : User) (lobby : Lobby)
    (hfind : findLobby db lobbyId = some lobby)
    (hreq : findRequest db user.id lobby.id = none) :
    cancelJoinRequest db conn lobbyId user
      = .error (.badRequest
          "An unexpected error occurred while trying to cancel join request. Please try again later.") := by
  have hany : db.joinRequests.any
      (fun r => r.userId = user.id && r.lobbyId = lobby.id) = false := by
    rw [List.any_eq_false]
    intro r hr
    have := List.find?_eq_none.mp hreq r hr
    simpa using this
  have hdel : deleteRequest db user.id lobby.id = none := by
    unfold deleteRequest
    rw [hany]
    simp
  simp [cancelJoinRequest, guarded, getLobbyById, hfind, hdel, handleServiceError,
    Bind.bind, Except.bind]

/-- Witness for the amended C6 at the capacity-2 state with no requests. -/
theorem cancel_missing_request_amended_witness :
    cancelJoinRequest dbCapTwoFull ["u1"] "L" fixFree
      = .error (.badRequest
          "An unexpected error occurred while trying to cancel join request. Please try again later.") :=
  cancel_missing_request_amended dbCapTwoFull ["u1"] "L" fixFree
    (fixLobby 2 .PUBLIC) (by decide) (by decide)

/-- C5 counterexample: capacity-2 lobby, owner sole member, pending request
from "u2".  The first approve succeeds and fills the lobby; the second approve
of the same (now missing) request fails with the capacity `BadRequestException`
— not `NotFound` — because the capacity check precedes the request lookup. -/
theorem approve_missing_request_capacity_cx :
    approveJoinRequest dbCapTwo [] "L" "u2" fixOwner
      = .ok ⟨dbCapTwoFull, [], "User has been added to the lobby"⟩
    ∧ findRequest dbCapTwoFull "u2" "L" = none
    ∧ approveJoinRequest dbCapTwoFull [] "L" "u2" fixOwner
        = .error (.badRequest "Lobby has reached maximum capacity")
    ∧ (SvcError.badRequest "Lobby has reached maximum capacity").isNotFound = false := by
  exact ⟨rfl, by decide, rfl, by decide⟩

/-- C5 amended: with the lobby present and the caller its owner, a missing
join request makes `rejectJoinRequest` fail `NotFound` unconditionally, and
makes `approveJoinRequest` fail `NotFound` provided the member count is still
below capacity; at capacity the capacity error fires first. -/
theorem missing_request_notfound_amended (db : DB) (conn : List String)
    (lobbyId userId : String) (owner : User) (lobby : Lobby)
    (hfind : findLobby db lobbyId = some lobby)
    (hown : lobby.ownerId = owner.id)
    (hreq : findRequest db userId lobbyId = none) :
    ((membersOf db lobby.id).length < lobby.capacity →
       approveJoinRequest db conn lobbyId userId owner
         = .error (.notFound "Join request not found"))
    ∧ rejectJoinRequest db conn lobbyId userId owner
        = .error (.notFound "Join request not found") := by
  constructor
  · intro hcap
    simp [approveJoinRequest, guarded, getLobbyById, hfind, hown, hreq,
      handleServiceError, Nat.not_le_of_lt hcap, Bind.bind, Except.bind]
  · simp [rejectJoinRequest, guarded, getLobbyById, hfind, hown, hreq,
      handleServiceError, Bind.bind, Except.bind]

/-- C1: with the lobby present and the caller its owner, a member count at or
above capacity makes `approveJoinRequest` fail with the capacity
`BadRequestException` (errors carry no state change, so membership is
untouched); and any successful approve leaves the member count at most the
capacity.  `hnd` is the `@id` uniqueness of user rows. -/
theorem approve_capacity_guard (db : DB) (conn : List String) (lobbyId userId : String)
    (owner : User) (lobby : Lobby)
    (hfind : findLobby db lobbyId = some lobby)
    (hown : lobby.ownerId = owner.id)
    (hnd : (db.users.map User.id).Nodup) :
    ((membersOf db lobby.id).length ≥ lobby.capacity →
       approveJoinRequest db conn lobbyId userId owner
         = .error (.badRequest "Lobby has reached maximum capacity"))
    ∧ (∀ r, approveJoinRequest db conn lobbyId userId owner = .ok r →
        (membersOf r.db lobby.id).length ≤ lobby.capacity) := by
  constructor
  · intro hfull
    simp [approveJoinRequest, guarded, getLobbyById, hfind, hown, hfull,
      handleServiceError, Bind.bind, Except.bind]
  · intro r hok
    obtain ⟨lobby2, target, db1, hfl2, _, hcap2, _, hfu, htl, hupd, hdel, _⟩ :=
      approveJoinRequest_ok db conn lobbyId userId owner r hok
    rw [hfind] at hfl2
    injection hfl2 with hsame
    subst hsame
    have husers : r.db.users = db1.users := deleteRequest_users db1 userId lobbyId r.db hdel
    have hu1 : db1.users = db.users.map
        (fun u => if u.id = userId then { u with lobbyId := some lobbyId } else u) := by
      rw [updateUser_eq db userId _ db1 hupd]
    have hle : (membersOf r.db lobby.id).length
        ≤ (membersOf db lobby.id).length + db.users.countP (fun u => u.id = userId) := by
      unfold membersOf
      rw [husers, hu1]
      exact length_filter_map_update_le db.users userId _ _
    have hcnt := countP_id_le_one db.users userId hnd
    omega

/-- Witness for C1, the spec's capacity-1 scenario: "u1" alone fills the
capacity-1 lobby, and approving the pending request from "u2" fails with the
capacity error. -/
theorem approve_capacity_guard_witness :
    approveJoinRequest dbCapOne [] "L" "u2" fixOwner
      = .error (.badRequest "Lobby has reached maximum capacity") :=
  (approve_capacity_guard dbCapOne [] "L" "u2" fixOwner (fixLobby 1 .PUBLIC)
    (by decide) (by decide) (by decide)).1 (by decide)

/-- C4: a successful `approveJoinRequest` leaves a post-state in which the
target's member-lobby reference is set to the lobby AND the matching join
request is gone — both effects of the single `$transaction`, which this model
applies as one atomic step, so no intermediate state is observable. -/
theorem approve_success_admits_and_deletes (db : DB) (conn : List String)
    (lobbyId userId : String) (owner : User) (r : SvcResult)
    (hok : approveJoinRequest db conn lobbyId userId owner = .ok r) :
    (findUser db userId).isSome
    ∧ findUser r.db userId
        = (findUser db userId).map (fun t => { t with lobbyId := some lobbyId })
    ∧ findRequest r.db userId lobbyId = none := by
  obtain ⟨lobby, target, db1, hfl, hown, hcap, hreq, hfu, htl, hupd, hdel, hev⟩ :=
    approveJoinRequest_ok db conn lobbyId userId owner r hok
  refine ⟨by simp [hfu], ?_, findRequest_after_delete db1 userId lobbyId r.db hdel⟩
  have husers : r.db.users = db1.users := deleteRequest_users db1 userId lobbyId r.db hdel
  have hu1 : db1.users = db.users.map
      (fun u => if u.id = userId then { u with lobbyId := some lobbyId } else u) := by
    rw [updateUser_eq db userId _ db1 hupd]
  have hstep : findUser r.db userId
      = (db.users.map (fun u => if u.id = userId then { u with lobbyId := some lobbyId } else u)).find?
          (fun v => v.id = userId) := by
    unfold findUser
    rw [husers, hu1]
  rw [hstep, hfu]
  exact find?_map_update_self db.users userId _ target (fun x => rfl) hfu

/-- Witness for C4 at the capacity-2 state: approving "u2" sets their member
reference to "L" and deletes the request. -/
theorem approve_success_admits_and_deletes_witness :
    (findUser dbCapTwo "u2").isSome
    ∧ findUser dbCapTwoFull "u2"
        = (findUser dbCapTwo "u2").map (fun t => { t with lobbyId := some "L" })
    ∧ findRequest dbCapTwoFull "u2" "L" = none :=
  approve_success_admits_and_deletes dbCapTwo [] "L" "u2" fixOwner
    ⟨dbCapTwoFull, [], "User has been added to the lobby"⟩ rfl

/-- C3: whenever the requester has any outstanding join request system-wide
(to whatever lobby), `createJoinRequest` fails with the conflict-category
`BadRequestException` and creates nothing (errors carry no state change);
consequently a successful `createJoinRequest` never pushes any user above one
outstanding request. -/
theorem single_pending_request (db : DB) (conn : List String) (lobbyId : String)
    (user : User) :
    ((findAnyRequestOfUser db user.id).isSome →
       createJoinRequest db conn lobbyId user
         = .error (.badRequest "You already have a pending request to another lobby"))
    ∧ (∀ r, createJoinRequest db conn lobbyId user = .ok r →
        ∀ uid, countReq db uid ≤ 1 → countReq r.db uid ≤ 1) := by
  constructor
  · intro h
    simp [createJoinRequest, guarded, h, handleServiceError]
  · intro r hok uid hpre
    obtain ⟨hnone, lobby, hfl, hdb⟩ := createJoinRequest_ok db conn lobbyId user r hok
    rw [hdb]
    unfold countReq
    unfold countReq at hpre
    simp only [List.filter_append, List.length_append]
    by_cases huid : uid = user.id
    · have hz : List.filter (fun q => decide (q.userId = uid)) db.joinRequests = [] := by
        rw [List.filter_eq_nil_iff]
        intro q hq
        have hn := List.find?_eq_none.mp hnone q hq
        subst huid
        simpa using hn
      rw [hz]
      simp [List.filter, huid]
    · have hone : List.filter (fun q => decide (q.userId = uid))
          [(⟨user.id, lobby.id⟩ : JoinRequest)] = [] := by
        have hne : ¬(user.id = uid) := fun h => huid h.symm
        simp [List.filter, hne]
      rw [hone]
      simpa using hpre

/-- Witness for C3: "u2" has a pending request to lobby "L"; a second
request targeting a different lobby "M" fails with the conflict error. -/
theorem single_pending_request_witness :
    createJoinRequest dbCapTwo [] "M" fixFree
      = .error (.badRequest "You already have a pending request to another lobby") :=
  (single_pending_request dbCapTwo [] "M" fixFree).1 (by decide)

/-- Witness for the amended C5: in the roomy no-request state both approve and
reject of the absent request from "u2" fail `NotFound`. -/
theorem missing_request_notfound_amended_witness :
    approveJoinRequest dbNoReq [] "L" "u2" fixOwner
      = .error (.notFound "Join request not found")
    ∧ rejectJoinRequest dbNoReq [] "L" "u2" fixOwner
      = .error (.notFound "Join request not found") :=
  ⟨(missing_request_notfound_amended dbNoReq [] "L" "u2" fixOwner
      (fixLobby 30 .PUBLIC) (by decide) (by decide) (by decide)).1 (by decide),
   (missing_request_notfound_amended dbNoReq [] "L" "u2" fixOwner
      (fixLobby 30 .PUBLIC) (by decide) (by decide) (by decide)).2⟩

/-- C2 counterexample: from a fresh user, `createLobby` (PRIVATE "L") followed
by `leaveLobby` by the owner reaches a state where lobby "L" still exists with
`ownerId = "u1"` but "u1" is no longer in its member set: `leaveLobby` cleared
the owner's membership of their own lobby, refuting the invariant. -/
theorem owner_leave_breaks_membership_cx :
    createLobby { users := [fixFresh], lobbies := [], joinRequests := [] } []
        dtoPriv fixFresh "L"
      = .ok ⟨dbOwned, [], "created"⟩
    ∧ membersOf dbOwned "L" = [fixOwner]
    ∧ leaveLobby dbOwned [] fixOwner = .ok ⟨dbOwnerLeft, [], "You have left the lobby"⟩
    ∧ findLobby dbOwnerLeft "L" = some (fixLobby 30 .PRIVATE)
    ∧ (fixLobby 30 .PRIVATE).ownerId = "u1"
    ∧ membersOf dbOwnerLeft "L" = [] := by
  exact ⟨rfl, by decide, rfl, by decide, by decide, by decide⟩

/-- C2 amended: `removeMember` refuses to remove the lobby's owner (owner
self-removal is rejected), but `leaveLobby` has no owner check: invoked by any
user with a member reference — the owner included — it clears that reference
and resets the role while the lobby row survives, so the owner-in-member-set
invariant is not preserved by `leaveLobby`. -/
theorem owner_membership_amended (db : DB) (conn : List String)
    (lobbyId memberId : String) (caller : User) (lobby : Lobby)
    (hfind : findLobby db lobbyId = some lobby) :
    (lobby.ownerId = caller.id → memberId = caller.id →
       removeMember db conn lobbyId memberId caller
         = .error (.badRequest "Owner cannot remove themselves"))
    ∧ (∀ lid, caller.lobbyId = some lid → findUser db caller.id = some caller →
        ∀ r, leaveLobby db conn caller = .ok r →
          findUser r.db caller.id = some { caller with lobbyId := none, role := .MEMBER }
          ∧ findLobby r.db lobbyId = some lobby) := by
  constructor
  · intro hown hself
    simp [removeMember, guarded, getLobbyById, hfind, hown, hself,
      handleServiceError, Bind.bind, Except.bind]
  · intro lid hl hfu r hok
    unfold leaveLobby at hok
    rw [guarded_ok_iff] at hok
    rw [hl] at hok
    simp only [Bind.bind] at hok
    cases hupd : updateUser db caller.id
        (fun u => { u with lobbyId := none, role := .MEMBER }) with
    | none => rw [hupd] at hok; exact absurd hok (by simp [Except.bind])
    | some db1 =>
      rw [hupd] at hok
      simp only [Except.bind] at hok
      have hr := (Except.ok.injEq _ _).mp hok
      have hu1 : db1 = { db with users := db.users.map (fun u =>
          if u.id = caller.id then { u with lobbyId := none, role := .MEMBER } else u) } :=
        updateUser_eq db caller.id _ db1 hupd
      constructor
      · have hstep : findUser r.db caller.id
            = (db.users.map
                (fun u => if u.id = caller.id then { u with lobbyId := none, role := .MEMBER } else u)).find?
                (fun v => v.id = caller.id) := by
          unfold findUser
          rw [← hr]
          rw [hu1]
        rw [hstep]
        exact find?_map_update_self db.users caller.id _ caller (fun x => rfl) hfu
      · have hlob : r.db.lobbies = db.lobbies := by
          rw [← hr, hu1]
        unfold findLobby
        rw [hlob]
        exact hfind

/-- Witness for the amended C2: the owner of lobby "L" cannot remove
themselves via `removeMember`. -/
theorem owner_membership_amended_witness :
    removeMember dbOwned [] "L" "u1" fixOwner
      = .error (.badRequest "Owner cannot remove themselves") :=
  (owner_membership_amended dbOwned [] "L" "u1" fixOwner (fixLobby 30 .PRIVATE)
    (by decide)).1 (by decide) (by decide)

/-- C8 counterexample: a successful `removeMember` of connected member "u2"
emits only `request-updated(status=kicked)` to the target's user room; the
emitted event list contains no `member-left` event, refuting the claim that
`member-left` is emitted to the lobby room. -/
theorem remove_member_events_cx :
    removeMember dbKick ["u2"] "L" "u2" fixOwner
      = .ok ⟨dbKicked, [WsEvent.requestUpdated "user-u2" "L" .kicked none],
          "Member has been removed from the lobby"⟩
    ∧ ([WsEvent.requestUpdated "user-u2" "L" .kicked none].all
        (fun e => ! e.isMemberLeft)) = true := by
  exact ⟨rfl, by decide⟩

/-- C8 amended: a successful `removeMember` clears the target's member-lobby
reference and resets their role; the only event emitted is
`request-updated(status=kicked)` to the target's user room, and only when the
target is connected — no `member-left` event is ever emitted. -/
theorem remove_member_amended (db : DB) (conn : List String)
    (lobbyId memberId : String) (caller : User) (r : SvcResult)
    (hok : removeMember db conn lobbyId memberId caller = .ok r) :
    (findUser db memberId).isSome
    ∧ findUser r.db memberId
        = (findUser db memberId).map (fun t => { t with lobbyId := none, role := .MEMBER })
    ∧ r.events = (if isConnected conn memberId then
         [notifyUserRequestUpdate memberId lobbyId .kicked] else [])
    ∧ r.events.all (fun e => ! e.isMemberLeft) = true := by
  obtain ⟨lobby, target, hfl, hown, hself, hfu, htl, hupd, hev⟩ :=
    removeMember_ok db conn lobbyId memberId caller r hok
  refine ⟨by simp [hfu], ?_, hev, ?_⟩
  · have hu1 : r.db = { db with users := db.users.map (fun u =>
        if u.id = memberId then { u with lobbyId := none, role := .MEMBER } else u) } :=
      updateUser_eq db memberId _ r.db hupd
    have hstep : findUser r.db memberId
        = (db.users.map
            (fun u => if u.id = memberId then { u with lobbyId := none, role := .MEMBER } else u)).find?
            (fun v => v.id = memberId) := by
      unfold findUser
      rw [hu1]
    rw [hstep, hfu]
    exact find?_map_update_self db.users memberId _ target (fun x => rfl) hfu
  · rw [hev]
    cases hc : isConnected conn memberId <;>
      simp [WsEvent.isMemberLeft, notifyUserRequestUpdate]

/-- Witness for the amended C8: removing disconnected member "u2" clears their
membership and emits nothing. -/
theorem remove_member_amended_witness :
    (findUser dbKick "u2").isSome
    ∧ findUser dbKicked "u2"
        = (findUser dbKick "u2").map (fun t => { t with lobbyId := none, role := .MEMBER })
    ∧ ([] : List WsEvent) = (if isConnected [] "u2" then
         [notifyUserRequestUpdate "u2" "L" .kicked] else [])
    ∧ ([] : List WsEvent).all (fun e => ! e.isMemberLeft) = true :=
  remove_member_amended dbKick [] "L" "u2" fixOwner
    ⟨dbKicked, [], "Member has been removed from the lobby"⟩ rfl

end LobbySpy
